import Mathlib

/-
Shallow embedding of the sn-sync core (snsync/cache.py, snsync/merge.py,
snsync/sync.py).

Modelling conventions:
  * Python `str` is `String`; a value that may be None, or a dict key that may
    be absent and is only read through `dict.get` / `try ... except KeyError`,
    is an `Option` (absent and null are read identically there, so they are
    conflated).
  * The md5 content digest is an uninterpreted parameter `Hash : String →
    String`; no claim depends on properties of md5 itself.
  * External collaborators (difflib's Differ.compare and unified_diff, the
    HTTP client, the interactive prompt and editor) are parameters of the
    functions that call them.
  * A Python function that can raise is embedded as `Except PyErr ...`;
    `PyErr` names the exception classes the embedded code can raise.
-/

/-- Exceptions the embedded code can raise. -/
inductive PyErr where
  | nameError
  | keyError
  | jsonDecodeError
deriving DecidableEq, Repr

/-- cache.py lines 14-18, `class ModStatus(Enum)`. -/
inductive ModStatus where
  | NOCHANGE
  | LOCAL
  | REMOTE
  | BOTH
deriving DecidableEq, Repr

/-- One field's cached metadata, the per-field dict stored under
`meta[instance]['fields'][name]` (cache.py lines 176-191): current hash and
contents, plus the optional baseline (`prev_hash` / `prev_contents`). -/
structure FieldMeta where
  hash : Option String
  contents : Option String
  prev_hash : Option String
  prev_contents : Option String
deriving DecidableEq, Repr

/-- The freshly created empty per-field dict (cache.py line 178). -/
def FieldMeta.empty : FieldMeta := ⟨none, none, none, none⟩

/-- The per-field classification at the heart of `SNRecord.compare`
(cache.py lines 253-272), as the pure function of the three hashes the
if/elif chain computes. Python's `local_hash == prev_remote_hash` compares a
str with an Optional[str], so it is `some local_hash = prev_remote_hash`
here; the chained `local_hash != remote_hash != prev_remote_hash` of case 4
means `local_hash ≠ remote_hash ∧ remote_hash ≠ prev_remote_hash`. A triple
matched by no case appends nothing, hence the `none` fall-through. -/
def classify (local_hash remote_hash : String) (prev_remote_hash : Option String) :
    Option ModStatus :=
  if local_hash = remote_hash then
    some ModStatus.NOCHANGE
  else if local_hash ≠ remote_hash ∧
      (prev_remote_hash = none ∨ some local_hash = prev_remote_hash) then
    some ModStatus.REMOTE
  else if local_hash ≠ remote_hash ∧ some remote_hash = prev_remote_hash then
    some ModStatus.LOCAL
  else if local_hash ≠ remote_hash ∧ some remote_hash ≠ prev_remote_hash then
    some ModStatus.BOTH
  else
    none

/-- The record as fetched from Service Now (`resp['records'][0]` in sync.py
line 91): the three system columns plus the text value of each field. -/
structure RemoteRecord where
  sys_id : String
  sys_updated_on : String
  sys_updated_by : String
  value : String → String

/-- `self.meta[instance]` of an SNRecord (cache.py lines 165-191): the three
system columns and the per-field metadata dicts. The fields dict is a total
map into `FieldMeta`: a missing key behaves as the empty dict, exactly as the
`.get(name, {})`/`.get(key, None)` reads in `SNRecord.update` treat it. -/
structure SNInstanceMeta where
  sys_id : String
  updated_on : String
  updated_by : String
  fields : String → FieldMeta

/-- The fields map of an optionally-present instance meta: when the instance
has never been updated, `self.meta[instance]` starts as `{}` (cache.py lines
165-173) and every field reads as the empty dict. -/
def meta_fields : Option SNInstanceMeta → String → FieldMeta
  | none, _ => FieldMeta.empty
  | some im, name => im.fields name

/-- The body of the per-field loop of `SNRecord.update` (cache.py lines
180-191): `chash`/`phash` come from `.get` (None when absent), `rhash` is the
digest of the fetched value; the baseline is snapshotted from the previous
current values exactly when `phash is None and chash != rhash`, and the
current hash/contents are always overwritten. -/
def update_one_field (Hash : String → String) (cfield : FieldMeta) (rvalue : String) :
    FieldMeta :=
  if cfield.prev_hash = none ∧ cfield.hash ≠ some (Hash rvalue) then
    { hash := some (Hash rvalue), contents := some rvalue,
      prev_hash := cfield.hash, prev_contents := cfield.contents }
  else
    { cfield with hash := some (Hash rvalue), contents := some rvalue }

/-- `SNRecord.update` (cache.py lines 159-191): overwrite the instance's
system columns and run the per-field loop over the configured field names
(`self.config['fields'].keys()`). -/
def SNRecord_update (Hash : String → String) (cfgFields : List String)
    (m : Option SNInstanceMeta) (r : RemoteRecord) : SNInstanceMeta :=
  { sys_id := r.sys_id
    updated_on := r.sys_updated_on
    updated_by := r.sys_updated_by
    fields := cfgFields.foldl
      (fun fs name => Function.update fs name (update_one_field Hash (fs name) (r.value name)))
      (meta_fields m) }

/-- `SNRecord.update_field_meta` (cache.py lines 193-198): copy the current
hash/contents into the baseline slots. -/
def update_field_meta (fm : FieldMeta) : FieldMeta :=
  { fm with prev_hash := fm.hash, prev_contents := fm.contents }

/-- The per-field body of `SNRecord.compare` (cache.py lines 232-272):
`field['hash']` is a direct index and raises KeyError when the field was
never fetched; `field['prev_hash']` is read through try/except, hence the
plain Option. -/
def compare_field (Hash : String → String) (localContents : String) (fm : FieldMeta) :
    Except PyErr (Option ModStatus) :=
  match fm.hash with
  | none => Except.error PyErr.keyError
  | some remote_hash => Except.ok (classify (Hash localContents) remote_hash fm.prev_hash)

/-- merge.py lines 9-14, `drop_absent_lines`: keep the diff lines that do not
start with the Differ hint prefix. -/
def drop_absent_lines (diff : List String) : List String :=
  diff.filter (fun line => !(line.startsWith "?"))

/-- Python's `line[2:]` on the two-character diff prefix. -/
def drop2 (s : String) : String := s.drop 2

/-- The while-loop of `merge3` (merge.py lines 35-69), stepping through the
two Differ outputs and accumulating merged lines. On a conflict the loop
executes `break` (line 69) with both suffixes unconsumed; the conflict-marker
emission and the only assignment to `had_conflict` (lines 71-81) sit after
that `break` and are unreachable. Returns the accumulated result and the two
unconsumed suffixes. -/
def merge3_loop (od td result : List String) :
    List String × List String × List String :=
  match od, td with
  | o :: os, t :: ts =>
      if o = t ∧ (o.startsWith "  " ∨ o.startsWith "+ ") then
        merge3_loop os ts (result ++ [drop2 o])
      else if o = t ∧ o.startsWith "- " then
        merge3_loop os ts result
      else if o.startsWith "+ " ∧ t.startsWith "  " then
        merge3_loop os (t :: ts) (result ++ [drop2 o])
      else if t.startsWith "+ " ∧ o.startsWith "  " then
        merge3_loop (o :: os) ts (result ++ [drop2 t])
      else
        (result, o :: os, t :: ts)
  | _, _ => (result, od, td)
termination_by od.length + td.length

/-- merge.py lines 16-89, `merge3(base, other, this)`. `cmp` stands for
`difflib.Differ().compare`. After the loop the remaining lines of either diff
are appended with their prefixes stripped (lines 84-87); the `return` at line
89 then reads `had_conflict`, which no executed path ever binds (line 29
binds `has_conflict`, and the only `had_conflict = True` at line 81 lies
after the loop's `break`), so every call raises NameError. -/
def merge3 (cmp : List String → List String → List String)
    (base other this_ : List String) : Except PyErr (Bool × List String) :=
  let other_diff := drop_absent_lines (cmp base other)
  let this_diff := drop_absent_lines (cmp base this_)
  let had_conflict : Option Bool := none
  let lr := merge3_loop other_diff this_diff []
  let result := lr.1 ++ lr.2.1.map drop2 ++ lr.2.2.map drop2
  match had_conflict with
  | some b => Except.ok (b, result)
  | none => Except.error PyErr.nameError

/-- The module-level names snsync/merge.py binds (its imports and its three
functions). sync.py line 13 does `from snsync.merge import
merge3_has_conflict`, a name this list does not contain. -/
def merge_module_defs : List String :=
  ["difflib", "pprint", "drop_absent_lines", "merge3", "read_file"]

/-- `SNRecord.get_files`'s loop (cache.py lines 140-150) over the field/file
bindings. Line 140 `files = []` rebinds the parameter to a fresh list, the
same list the loop then appends each pair to; `files is not None` is always
true for it, so from the second binding on the inner `for file_path in files`
iterates a non-empty list and its first step evaluates the bare name
`contains_file`, which cache.py never binds at module level: NameError. -/
def get_files_loop {α : Type} : List (String × α) → List (String × α) →
    Except PyErr (List (String × α))
  | [], files => Except.ok files
  | (field, file) :: rest, files =>
      match files with
      | [] => get_files_loop rest (files ++ [(field, file)])
      | _ :: _ => Except.error PyErr.nameError

/-- `SNRecord.get_files` (cache.py lines 134-150). The `filesArg` parameter
is shadowed before its first read and never consulted. -/
def get_files {α : Type} (lfile_field_map : List (String × α))
    (filesArg : Option (List String)) : Except PyErr (List (String × α)) :=
  get_files_loop lfile_field_map []

/-- The operator's answer to the Overwrite/Merge/Skip prompt of
`resolve_conflict` (sync.py lines 106-115). -/
inductive RCAction where
  | overwrite
  | merge
  | skip
deriving DecidableEq, Repr

/-- The `prefer` argument of `resolve_conflict`; do_pull passes 'remote',
do_push and the watch handler pass 'local'. -/
inductive Prefer where
  | localSide
  | remoteSide
deriving DecidableEq, Repr

/-- sync.py lines 94-136, `resolve_conflict`. `action` is what the prompt
returned; when `confirm` is false the prompt is skipped and `action` keeps
its default 's' (line 104). The merge branch (lines 122-131) calls
`merge3_has_conflict`, a name snsync.merge does not define, so taking that
branch fails with a name/import error. The overwrite branch returns the
preferred side; skip returns None. -/
def resolve_conflict (confirm : Bool) (prefer : Prefer) (action : RCAction)
    (base : Option String) (localContents remoteContents : String) :
    Except PyErr (Option String) :=
  match (if confirm then action else RCAction.skip) with
  | RCAction.overwrite =>
      match prefer with
      | Prefer.localSide => Except.ok (some localContents)
      | Prefer.remoteSide => Except.ok (some remoteContents)
  | RCAction.merge => Except.error PyErr.nameError
  | RCAction.skip => Except.ok none

/-- The body of `do_pull`'s inner per-field loop (sync.py lines 151-171),
acting on one field: classify, then either skip (NOCHANGE), run conflict
resolution with prefer='remote' and confirm left at its default True
(LOCAL/BOTH), or take the fetched contents directly (REMOTE); a saved field
gets `update_field_meta` applied. Returns the (possibly overwritten) local
file contents and the field's new metadata. -/
def do_pull_field (Hash : String → String) (action : RCAction)
    (localContents : String) (fm : FieldMeta) : Except PyErr (String × FieldMeta) :=
  match compare_field Hash localContents fm with
  | Except.error e => Except.error e
  | Except.ok st? =>
      match st? with
      | some ModStatus.NOCHANGE => Except.ok (localContents, fm)
      | some ModStatus.REMOTE =>
          match fm.contents with
          | none => Except.error PyErr.keyError
          | some contents => Except.ok (contents, update_field_meta fm)
      | some ModStatus.LOCAL | some ModStatus.BOTH =>
          match fm.contents with
          | none => Except.error PyErr.keyError
          | some remoteContents =>
              match resolve_conflict true Prefer.remoteSide action fm.prev_contents
                  localContents remoteContents with
              | Except.error e => Except.error e
              | Except.ok none => Except.ok (localContents, fm)
              | Except.ok (some contents) => Except.ok (contents, update_field_meta fm)
      | none => Except.ok (localContents, fm)

/-- The state one record's sync run can read or write: the field/file
bindings (`lfile_field_map`, insertion order), the local filesystem
(written only by `LocalFile.save`), the in-memory per-instance meta, the
persisted cache document (written only by `SNRecord.save`), and the remote
record (written only by `client.update`). -/
structure SyncSt where
  lfile_field_map : List (String × String)
  localFS : String → String
  meta : Option SNInstanceMeta
  disk : Option SNInstanceMeta
  remote : RemoteRecord

/-- sync.py lines 82-91, `update_meta`: fetch the record from the instance
and merge it into the in-memory meta with `SNRecord.update`. -/
def update_meta (Hash : String → String) (cfgFields : List String) (s : SyncSt) : SyncSt :=
  { s with meta := some (SNRecord_update Hash cfgFields s.meta s.remote) }

/-- `SNRecord.compare` over the bound fields (cache.py lines 230-274): one
classification per binding, in order, dropping fields no case matched. -/
def compare_fields (Hash : String → String) (localFS : String → String)
    (fm : String → FieldMeta) : List (String × String) →
    Except PyErr (List (String × String × ModStatus))
  | [] => Except.ok []
  | (name, path) :: rest =>
      match compare_field Hash (localFS path) (fm name) with
      | Except.error e => Except.error e
      | Except.ok st? =>
          match compare_fields Hash localFS fm rest with
          | Except.error e => Except.error e
          | Except.ok tail =>
              match st? with
              | none => Except.ok tail
              | some st => Except.ok ((name, path, st) :: tail)

/-- The bucketing of `get_status` (sync.py lines 185-208): paths of
locally/remotely/both modified files, NOCHANGE skipped. -/
def status_buckets : List (String × String × ModStatus) →
    List String × List String × List String
  | [] => ([], [], [])
  | (_, path, st) :: rest =>
      match status_buckets rest, st with
      | (l, r, b), ModStatus.NOCHANGE => (l, r, b)
      | (l, r, b), ModStatus.LOCAL => (path :: l, r, b)
      | (l, r, b), ModStatus.REMOTE => (l, path :: r, b)
      | (l, r, b), ModStatus.BOTH => (l, r, path :: b)

/-- sync.py lines 176-229, `get_status`, for one record: refresh the meta
(the only state change), classify every bound field and bucket the results
for display (the click.echo rendering of lines 210-229 is external output of
those buckets). The impossible missing-meta lookup keeps compare's KeyError
shape. -/
def get_status_record (Hash : String → String) (cfgFields : List String) (s : SyncSt) :
    SyncSt × Except PyErr (List String × List String × List String) :=
  let s1 := update_meta Hash cfgFields s
  (s1,
    match s1.meta with
    | none => Except.error PyErr.keyError
    | some im =>
        match compare_fields Hash s1.localFS im.fields s1.lfile_field_map with
        | Except.error e => Except.error e
        | Except.ok comps => Except.ok (status_buckets comps))

/-- The per-file body of `do_diff`'s loop (sync.py lines 245-255):
`field['contents']` is a direct index, then the unified diff (external
`diffFn`) of remote against local contents is rendered; empty diffs are
dropped. -/
def diff_fields (diffFn : String → String → String) (localFS : String → String)
    (fm : String → FieldMeta) : List (String × String) →
    Except PyErr (List (String × String))
  | [] => Except.ok []
  | (name, path) :: rest =>
      match (fm name).contents with
      | none => Except.error PyErr.keyError
      | some remoteContents =>
          match diff_fields diffFn localFS fm rest with
          | Except.error e => Except.error e
          | Except.ok tail =>
              let d := diffFn remoteContents (localFS path)
              Except.ok (if d = "" then tail else (path, d) :: tail)

/-- sync.py lines 232-261, `do_diff`, for one record: refresh the meta (the
only state change), take the record's files through `get_files` (with its
ignored filter), and render unified diffs. -/
def do_diff_record (Hash : String → String) (cfgFields : List String)
    (diffFn : String → String → String) (filesArg : Option (List String)) (s : SyncSt) :
    SyncSt × Except PyErr (List (String × String)) :=
  let s1 := update_meta Hash cfgFields s
  (s1,
    match s1.meta with
    | none => Except.error PyErr.keyError
    | some im =>
        match get_files s1.lfile_field_map filesArg with
        | Except.error e => Except.error e
        | Except.ok fl => diff_fields diffFn s1.localFS im.fields fl)

/-- A record's persisted meta document: instance name → per-instance meta
(the JSON object `SNRecord.save` dumps and `SNCache.load_record` reads). -/
def MetaDoc : Type := String → Option SNInstanceMeta

/-- The SNRecord object as `__init__` builds it (cache.py lines 60-74),
restricted to the attributes the claims read. -/
structure SNRecordObj where
  record_type : String
  name : String
  meta : MetaDoc
  _new : Bool

/-- cache.py lines 60-74, `SNRecord.__init__`: `self.meta = meta or {}`
(line 72) and `self._new = (meta is not None)` (line 74, as written). -/
def mkSNRecord (record_type name : String) (meta : Option MetaDoc) : SNRecordObj :=
  { record_type := record_type
    name := name
    meta := match meta with
            | none => fun _ => none
            | some m => m
    _new := meta.isSome }

/-- cache.py lines 120-122, `SNRecord.is_new`. -/
def is_new (r : SNRecordObj) : Bool := r._new

/-- The cache state `SNCache.load_record` touches: the in-memory
`self.records` map and the on-disk cache directory, keyed by (record type,
key) with the raw text of the document at the computed path. -/
structure SNCacheSt where
  records : String → String → Option SNRecordObj
  disk : String → String → Option String

/-- The registration `self.records[record_type][key] = record` (cache.py
line 367). -/
def register (st : SNCacheSt) (rt key : String) (r : SNRecordObj) : SNCacheSt :=
  { st with records := fun a b => if a = rt ∧ b = key then some r else st.records a b }

/-- cache.py lines 343-368, `SNCache.load_record`. `parse` stands for
`json.load` on the document's text, `none` when the text is not valid JSON.
The try/except catches exactly FileNotFoundError (an absent file, `disk =
none`); a file that exists but does not parse raises json's decode error,
which propagates. -/
def load_record (parse : String → Option MetaDoc) (st : SNCacheSt) (rt key : String) :
    Except PyErr (SNRecordObj × SNCacheSt) :=
  match st.records rt key with
  | some r => Except.ok (r, st)
  | none =>
      match st.disk rt key with
      | some raw =>
          match parse raw with
          | none => Except.error PyErr.jsonDecodeError
          | some m => Except.ok (mkSNRecord rt key (some m),
              register st rt key (mkSNRecord rt key (some m)))
      | none => Except.ok (mkSNRecord rt key none,
          register st rt key (mkSNRecord rt key none))

/-! Helper lemmas. -/

/-- Folding per-key updates over a list leaves keys outside the list alone. -/
theorem foldl_update_not_mem {β : Type} (g : String → β → β) :
    ∀ (l : List String) (fs : String → β) (x : String), x ∉ l →
      l.foldl (fun fs n => Function.update fs n (g n (fs n))) fs x = fs x := by
  intro l
  induction l with
  | nil => intro fs x _; rfl
  | cons n t ih =>
      intro fs x hx
      rw [List.mem_cons] at hx
      push_neg at hx
      rw [List.foldl_cons, ih _ x hx.2, Function.update_noteq hx.1]

/-- Folding per-key updates over a duplicate-free list applies the update to
a listed key exactly once. -/
theorem foldl_update_mem {β : Type} (g : String → β → β) :
    ∀ (l : List String) (fs : String → β) (x : String), l.Nodup → x ∈ l →
      l.foldl (fun fs n => Function.update fs n (g n (fs n))) fs x = g x (fs x) := by
  intro l
  induction l with
  | nil => intro fs x _ hx; exact absurd hx (List.not_mem_nil x)
  | cons n t ih =>
      intro fs x hnd hx
      rw [List.nodup_cons] at hnd
      rw [List.foldl_cons]
      rcases List.mem_cons.mp hx with h | h
      · subst h
        rw [foldl_update_not_mem g t _ x hnd.1, Function.update_same]
      · have hxn : x ≠ n := fun e => hnd.1 (e ▸ h)
        rw [ih _ x hnd.2 h, Function.update_noteq hxn]

/-- What one pass of the per-field update loop does to a field's metadata. -/
theorem update_one_field_spec (Hash : String → String) (cf : FieldMeta) (rv : String) :
    (update_one_field Hash cf rv).hash = some (Hash rv) ∧
    (update_one_field Hash cf rv).contents = some rv ∧
    (cf.prev_hash = none ∧ cf.hash ≠ some (Hash rv) →
      (update_one_field Hash cf rv).prev_hash = cf.hash ∧
      (update_one_field Hash cf rv).prev_contents = cf.contents) ∧
    (cf.prev_hash ≠ none →
      (update_one_field Hash cf rv).prev_hash = cf.prev_hash ∧
      (update_one_field Hash cf rv).prev_contents = cf.prev_contents) ∧
    (cf.prev_hash = none ∧ cf.hash = some (Hash rv) →
      (update_one_field Hash cf rv).prev_hash = none ∧
      (update_one_field Hash cf rv).prev_contents = cf.prev_contents) := by
  unfold update_one_field
  by_cases hc : cf.prev_hash = none ∧ cf.hash ≠ some (Hash rv)
  · rw [if_pos hc]
    exact ⟨rfl, rfl, fun _ => ⟨rfl, rfl⟩, fun h => absurd hc.1 h, fun h => absurd h.2 hc.2⟩
  · rw [if_neg hc]
    push_neg at hc
    exact ⟨rfl, rfl, fun h => absurd (hc h.1) h.2, fun _ => ⟨rfl, rfl⟩, fun h => ⟨h.1, rfl⟩⟩

/-- A field classified REMOTE makes do_pull take the fetched contents and
close the episode with `update_field_meta`. -/
theorem do_pull_field_remote (Hash : String → String) (action : RCAction)
    (L rh rc : String) (fm : FieldMeta)
    (hh : fm.hash = some rh) (hp : fm.prev_hash = none) (hc : fm.contents = some rc)
    (hne : Hash L ≠ rh) :
    do_pull_field Hash action L fm = Except.ok (rc, update_field_meta fm) := by
  obtain ⟨h, c, p, pc⟩ := fm
  simp only [FieldMeta.hash] at hh
  simp only [FieldMeta.prev_hash] at hp
  simp only [FieldMeta.contents] at hc
  subst hh; subst hp; subst hc
  simp [do_pull_field, compare_field, classify, hne]

/-! The claims. -/

/-- Claim C1: the change classifier is a pure function of (localHash,
remoteHash, baselineHash?): equal local and remote hashes give NOCHANGE
whatever the baseline (NOCHANGE is checked first); differing hashes give
REMOTE when the baseline is absent or equals the local hash, LOCAL when the
baseline equals the remote hash, and BOTH when the three hashes are pairwise
distinct. -/
theorem classify_cases (l r : String) (p : Option String) :
    (l = r → classify l r p = some ModStatus.NOCHANGE) ∧
    (l ≠ r → p = none → classify l r p = some ModStatus.REMOTE) ∧
    (l ≠ r → p = some l → classify l r p = some ModStatus.REMOTE) ∧
    (l ≠ r → p = some r → classify l r p = some ModStatus.LOCAL) ∧
    (∀ b, l ≠ r → p = some b → b ≠ l → b ≠ r → classify l r p = some ModStatus.BOTH) := by
  refine ⟨?_, ?_, ?_, ?_, ?_⟩
  · intro h; simp [classify, h]
  · intro h hp; subst hp; simp [classify, h]
  · intro h hp; subst hp; simp [classify, h]
  · intro h hp; subst hp; simp [classify, h, Ne.symm h]
  · intro b h hp hbl hbr
    subst hp
    have h1 : ¬ (l = b) := fun e => hbl e.symm
    have h2 : ¬ (r = b) := fun e => hbr e.symm
    simp [classify, h, h1, h2]

/-- Witness for C1 at concrete hashes. -/
theorem classify_cases_concrete :
    classify "h" "h" (some "x") = some ModStatus.NOCHANGE ∧
    classify "h1" "h2" none = some ModStatus.REMOTE ∧
    classify "hb" "h2" (some "hb") = some ModStatus.REMOTE ∧
    classify "h1" "hb" (some "hb") = some ModStatus.LOCAL ∧
    classify "h1" "h2" (some "hb") = some ModStatus.BOTH :=
  ⟨(classify_cases "h" "h" (some "x")).1 rfl,
   (classify_cases "h1" "h2" none).2.1 (by decide) rfl,
   (classify_cases "hb" "h2" (some "hb")).2.2.1 (by decide) rfl,
   (classify_cases "h1" "hb" (some "hb")).2.2.2.1 (by decide) rfl,
   (classify_cases "h1" "h2" (some "hb")).2.2.2.2 "hb" (by decide) rfl (by decide) (by decide)⟩

/-- Claim C2: for every instance and every configured field, SNRecord.update
snapshots the previously stored hash/contents into the baseline exactly when
no baseline is recorded and the freshly fetched hash differs from the stored
hash; an already-recorded baseline is left untouched; and the current
hash/contents are always overwritten with the fetched value. -/
theorem update_snapshots_baseline (Hash : String → String) (cfg : List String)
    (m : Option SNInstanceMeta) (r : RemoteRecord) (name : String)
    (hmem : name ∈ cfg) (hnd : cfg.Nodup) :
    (SNRecord_update Hash cfg m r).fields name
      = update_one_field Hash (meta_fields m name) (r.value name) ∧
    (update_one_field Hash (meta_fields m name) (r.value name)).hash
      = some (Hash (r.value name)) ∧
    (update_one_field Hash (meta_fields m name) (r.value name)).contents
      = some (r.value name) ∧
    ((meta_fields m name).prev_hash = none ∧
        (meta_fields m name).hash ≠ some (Hash (r.value name)) →
      (update_one_field Hash (meta_fields m name) (r.value name)).prev_hash
          = (meta_fields m name).hash ∧
      (update_one_field Hash (meta_fields m name) (r.value name)).prev_contents
          = (meta_fields m name).contents) ∧
    ((meta_fields m name).prev_hash ≠ none →
      (update_one_field Hash (meta_fields m name) (r.value name)).prev_hash
          = (meta_fields m name).prev_hash ∧
      (update_one_field Hash (meta_fields m name) (r.value name)).prev_contents
          = (meta_fields m name).prev_contents) ∧
    ((meta_fields m name).prev_hash = none ∧
        (meta_fields m name).hash = some (Hash (r.value name)) →
      (update_one_field Hash (meta_fields m name) (r.value name)).prev_hash = none ∧
      (update_one_field Hash (meta_fields m name) (r.value name)).prev_contents
          = (meta_fields m name).prev_contents) := by
  obtain ⟨s1, s2, s3, s4, s5⟩ := update_one_field_spec Hash (meta_fields m name) (r.value name)
  refine ⟨?_, s1, s2, s3, s4, s5⟩
  exact foldl_update_mem (fun n v => update_one_field Hash v (r.value n)) cfg
    (meta_fields m) name hnd hmem

/-- The fetched remote record used by the concrete instantiations. -/
def r0 : RemoteRecord := ⟨"sid0", "2020-01-01", "admin", fun _ => "v"⟩

/-- Witness for C2: one configured field, fresh meta, identity digest. -/
theorem update_snapshots_baseline_concrete :
    ("script" ∈ (["script"] : List String)) ∧ (["script"] : List String).Nodup ∧
    (SNRecord_update (fun s => s) ["script"] none r0).fields "script"
      = update_one_field (fun s => s) (meta_fields none "script") (r0.value "script") :=
  ⟨by decide, by decide,
   (update_snapshots_baseline (fun s => s) ["script"] none r0 "script"
     (by decide) (by decide)).1⟩

/-- Claim C3 (the claim fails on the code): merging X with X and X does not
return (false, X) — for any differ, merge3 on three equal singleton line
sequences ends in NameError, because `had_conflict` is read at the return
but only `has_conflict` was ever bound. -/
theorem merge3_idempotence_violated :
    ∀ cmp : List String → List String → List String,
      merge3 cmp ["a"] ["a"] ["a"] = Except.error PyErr.nameError :=
  fun _ => rfl

/-- Claim C4 (the claim fails on the code): on the conflicting edit triple
the loop breaks before the unreachable marker-emission block, so no
local/remote marked blocks are produced and the call ends in NameError. -/
theorem merge3_conflict_markers_violated :
    ∀ cmp : List String → List String → List String,
      merge3 cmp ["a", "b", "c"] ["a", "X", "c"] ["a", "Y", "c"]
        = Except.error PyErr.nameError :=
  fun _ => rfl

/-- Claim C5: a field whose baseline is absent after the fetch and whose
local hash differs from the fetched remote hash is classified REMOTE by the
pull, overwritten with the remote contents, and left with its baseline equal
to the fetched hash (update_field_meta copies the current hash/contents into
the baseline). -/
theorem pull_remote_only_postcondition (Hash : String → String) (action : RCAction)
    (fm0 : FieldMeta) (L R : String)
    (hprev : (update_one_field Hash fm0 R).prev_hash = none)
    (hne : Hash L ≠ Hash R) :
    do_pull_field Hash action L (update_one_field Hash fm0 R)
      = Except.ok (R, { hash := some (Hash R), contents := some R,
                        prev_hash := some (Hash R), prev_contents := some R }) := by
  obtain ⟨hh, hc, -, -, -⟩ := update_one_field_spec Hash fm0 R
  rw [do_pull_field_remote Hash action L (Hash R) R (update_one_field Hash fm0 R)
    hh hprev hc hne]
  unfold update_field_meta
  rw [hh, hc]

/-- Witness for C5: identity digest, empty prior meta, local "x" against
fetched "y". -/
theorem pull_remote_only_concrete :
    (update_one_field (fun s => s) FieldMeta.empty "y").prev_hash = none ∧
    do_pull_field (fun s => s) RCAction.skip "x" (update_one_field (fun s => s) FieldMeta.empty "y")
      = Except.ok ("y", { hash := some "y", contents := some "y",
                          prev_hash := some "y", prev_contents := some "y" }) :=
  ⟨rfl, pull_remote_only_postcondition (fun s => s) RCAction.skip FieldMeta.empty "x" "y"
    rfl (by decide)⟩

/-- A cache whose document for every key exists on disk but does not parse
as JSON. -/
def corruptCache : SNCacheSt :=
  { records := fun _ _ => none, disk := fun _ _ => some "not json" }

/-- A cache with no in-memory records and no on-disk documents. -/
def absentCache : SNCacheSt :=
  { records := fun _ _ => none, disk := fun _ _ => none }

/-- A parse that rejects every document, as json.load does on corrupt text. -/
def rejectAll : String → Option MetaDoc := fun _ => none

/-- Counterexample to claim C6: with a present but malformed document,
load_record fails with the JSON decode error instead of building a fresh
record — only FileNotFoundError is caught. -/
theorem load_record_corrupt_fails :
    load_record rejectAll corruptCache "script_include" "foo"
      = Except.error PyErr.jsonDecodeError := rfl

/-- Claim C6 as amended: an absent document (FileNotFoundError) is non-fatal
and yields a brand-new registered Record with empty meta, but a document
that exists and fails to parse raises the decode error, which load_record
does not catch. -/
theorem load_record_absent_vs_corrupt (parse : String → Option MetaDoc)
    (st : SNCacheSt) (rt key : String) :
    (st.records rt key = none → st.disk rt key = none →
      load_record parse st rt key
        = Except.ok (mkSNRecord rt key none, register st rt key (mkSNRecord rt key none)) ∧
      (register st rt key (mkSNRecord rt key none)).records rt key
        = some (mkSNRecord rt key none) ∧
      (mkSNRecord rt key none).meta = fun _ => none) ∧
    (∀ raw, st.records rt key = none → st.disk rt key = some raw → parse raw = none →
      load_record parse st rt key = Except.error PyErr.jsonDecodeError) := by
  constructor
  · intro h1 h2
    refine ⟨?_, ?_, rfl⟩
    · simp [load_record, h1, h2]
    · unfold register
      simp
  · intro raw h1 h2 h3
    simp [load_record, h1, h2, h3]

/-- Witness for C6's amended statement: the absent and the corrupt case at
concrete caches. -/
theorem load_record_absent_vs_corrupt_concrete :
    load_record rejectAll absentCache "t" "k"
      = Except.ok (mkSNRecord "t" "k" none,
          register absentCache "t" "k" (mkSNRecord "t" "k" none)) ∧
    load_record rejectAll corruptCache "t" "k" = Except.error PyErr.jsonDecodeError :=
  ⟨((load_record_absent_vs_corrupt rejectAll absentCache "t" "k").1 rfl rfl).1,
   (load_record_absent_vs_corrupt rejectAll corruptCache "t" "k").2 "not json" rfl rfl rfl⟩

/-- Claim C7 (the claim fails on the code): `is_new` is inverted. A record
built with no persisted meta reports False, one built from a deserialized
document reports True: line 74 sets `_new = (meta is not None)` where the
surrounding comment and the is_new docstring require the negation. -/
theorem is_new_inverted :
    is_new (mkSNRecord "script_include" "foo" none) = false ∧
    (∀ m : MetaDoc, is_new (mkSNRecord "script_include" "foo" (some m)) = true) :=
  ⟨rfl, fun _ => rfl⟩

/-- Claim C8: get_status and do_diff refresh the fetched meta and render;
they never write a local field file, never issue a remote update and never
persist a record document — the state components behind LocalFile.save,
client.update and SNRecord.save are unchanged, as are the bindings. -/
theorem status_diff_no_state_mutation (Hash : String → String) (cfgFields : List String)
    (diffFn : String → String → String) (filesArg : Option (List String)) (s : SyncSt) :
    ((get_status_record Hash cfgFields s).1.localFS = s.localFS ∧
     (get_status_record Hash cfgFields s).1.disk = s.disk ∧
     (get_status_record Hash cfgFields s).1.remote = s.remote ∧
     (get_status_record Hash cfgFields s).1.lfile_field_map = s.lfile_field_map) ∧
    ((do_diff_record Hash cfgFields diffFn filesArg s).1.localFS = s.localFS ∧
     (do_diff_record Hash cfgFields diffFn filesArg s).1.disk = s.disk ∧
     (do_diff_record Hash cfgFields diffFn filesArg s).1.remote = s.remote ∧
     (do_diff_record Hash cfgFields diffFn filesArg s).1.lfile_field_map = s.lfile_field_map) :=
  ⟨⟨rfl, rfl, rfl, rfl⟩, ⟨rfl, rfl, rfl, rfl⟩⟩

/-- Claim C9 (the claim fails on the code): merge3 never returns a (flag,
lines) pair — every call, whatever the differ and inputs, ends in the
NameError on the unbound `had_conflict` — and `merge3_has_conflict`, the
name sync.py imports from the merge module, is not among the module's
definitions, so the orchestrator's import itself fails. -/
theorem merge3_never_returns_pair :
    (∀ (cmp : List String → List String → List String) (base other this_ : List String),
        merge3 cmp base other this_ = Except.error PyErr.nameError) ∧
    "merge3_has_conflict" ∉ merge_module_defs :=
  ⟨fun _ _ _ _ => rfl, by decide⟩

/-- Counterexample to claim C10: a record with two bound fields does not get
all its (field, file) pairs back — get_files raises NameError on the bare
`contains_file` once the shadowed files list is non-empty. -/
theorem get_files_two_fields_raises :
    get_files [("script", "a.js"), ("stylesheet", "a.css")] (some ["a.js"])
      = Except.error PyErr.nameError := rfl

/-- Claim C10 as amended: get_files does ignore its files filter — the
result never depends on the argument and equals the no-filter call — but it
returns all bound (field, file) pairs only for records with at most one
binding; with two or more bindings every call raises NameError, so
do_diff's files restriction never restricts fields and do_diff fails
outright on multi-field records. -/
theorem get_files_ignores_filter {α : Type} (m : List (String × α))
    (fa : Option (List String)) :
    get_files m fa = get_files m none ∧
    (m.length ≤ 1 → get_files m fa = Except.ok m) ∧
    (2 ≤ m.length → get_files m fa = Except.error PyErr.nameError) := by
  refine ⟨rfl, ?_, ?_⟩
  · intro h
    rcases m with _ | ⟨⟨f1, l1⟩, _ | ⟨⟨f2, l2⟩, t⟩⟩
    · rfl
    · rfl
    · simp [List.length_cons] at h
  · intro h
    rcases m with _ | ⟨⟨f1, l1⟩, _ | ⟨⟨f2, l2⟩, t⟩⟩
    · simp at h
    · simp at h
    · rfl

/-- Witness for C10's amended statement at concrete bindings. -/
theorem get_files_ignores_filter_concrete :
    get_files [("script", "p.js")] (some ["other.js"]) = Except.ok [("script", "p.js")] ∧
    get_files [("a", "p"), ("b", "q"), ("c", "r")] (some ["p"])
      = Except.error PyErr.nameError :=
  ⟨(get_files_ignores_filter [("script", "p.js")] (some ["other.js"])).2.1 (by decide),
   (get_files_ignores_filter [("a", "p"), ("b", "q"), ("c", "r")] (some ["p"])).2.2
     (by decide)⟩
